import Mathlib

/-!
Verification development for the firmware-side data layer of the multi-chip
electrical metrology subsystem (`metrology.h`).

The header declares the data model (enums, device configuration, energy
accumulator state) and the operation surface.  Enumerations and array bounds
are embedded directly from the header with their C numeric values.  The
operation bodies are not part of the repository snapshot (the header only
declares their prototypes), so each operation is modelled from the
specification; every such definition carries a doc comment naming what is
missing.
-/

namespace Metrology

/-- Logical measurement channel (`METRO_Channel_t`, header lines 407-413):
`CHANNEL_NONE = 0`, `CHANNEL_1 = 1`, `CHANNEL_2 = 2`, `NB_MAX_CHANNEL = 3`. -/
inductive METRO_Channel_t
  | CHANNEL_NONE
  | CHANNEL_1
  | CHANNEL_2
  | NB_MAX_CHANNEL
deriving DecidableEq, Fintype

/-- The C numeric value of each `METRO_Channel_t` enumerator. -/
def METRO_Channel_t.toNat : METRO_Channel_t → Nat
  | .CHANNEL_NONE => 0
  | .CHANNEL_1 => 1
  | .CHANNEL_2 => 2
  | .NB_MAX_CHANNEL => 3

/-- Partial inverse of `METRO_Channel_t.toNat`: which enumerator, if any,
carries a given numeric value. -/
def channelOfNat : Nat → Option METRO_Channel_t
  | 0 => some .CHANNEL_NONE
  | 1 => some .CHANNEL_1
  | 2 => some .CHANNEL_2
  | 3 => some .NB_MAX_CHANNEL
  | _ => none

/-- Internal chip channel (`METRO_internal_Channel_t`, header lines 415-421):
`INT_NONE_CHANNEL = 0`, `INT_CHANNEL_1 = 1`, `INT_CHANNEL_2 = 2`,
`CHANNEL_TAMPER = 3`. -/
inductive METRO_internal_Channel_t
  | INT_NONE_CHANNEL
  | INT_CHANNEL_1
  | INT_CHANNEL_2
  | CHANNEL_TAMPER
deriving DecidableEq, Fintype

/-- Device slot enumeration (`METRO_NB_Device_t`): `HOST = 0`, `EXT1 = 1`,
`NB_MAX_DEVICE = 2`. -/
inductive METRO_NB_Device_t
  | HOST
  | EXT1
  | NB_MAX_DEVICE
deriving DecidableEq, Fintype

/-- Energy kind (`METRO_Energy_selection_t`, header lines 202-209):
`E_W_ACTIVE = 1`, `E_F_ACTIVE = 2`, `E_REACTIVE = 3`, `E_APPARENT = 4`,
`NB_MAX_TYPE_NRJ = 5`. -/
inductive METRO_Energy_selection_t
  | E_W_ACTIVE
  | E_F_ACTIVE
  | E_REACTIVE
  | E_APPARENT
  | NB_MAX_TYPE_NRJ
deriving DecidableEq, Fintype

/-- The C numeric value of each `METRO_Energy_selection_t` enumerator. -/
def METRO_Energy_selection_t.toNat : METRO_Energy_selection_t → Nat
  | .E_W_ACTIVE => 1
  | .E_F_ACTIVE => 2
  | .E_REACTIVE => 3
  | .E_APPARENT => 4
  | .NB_MAX_TYPE_NRJ => 5

/-- Power kind (`METRO_Power_selection_t`, header lines 181-190). -/
inductive METRO_Power_selection_t
  | W_ACTIVE
  | F_ACTIVE
  | REACTIVE
  | APPARENT_RMS
  | APPARENT_VEC
  | MOM_WIDE_ACT
  | MOM_FUND_ACT
deriving DecidableEq, Fintype

/-- The C numeric value of each `METRO_Power_selection_t` enumerator
(`W_ACTIVE = 1`, ...). -/
def METRO_Power_selection_t.toNat : METRO_Power_selection_t → Nat
  | .W_ACTIVE => 1
  | .F_ACTIVE => 2
  | .REACTIVE => 3
  | .APPARENT_RMS => 4
  | .APPARENT_VEC => 5
  | .MOM_WIDE_ACT => 6
  | .MOM_FUND_ACT => 7

/-- Latch strategy (`METRO_Latch_Device_Type_t`, header lines 227-232):
`LATCH_SYN_SCS = 1`, `LATCH_SW = 2`, `LATCH_AUTO = 3`. -/
inductive METRO_Latch_Device_Type_t
  | LATCH_SYN_SCS
  | LATCH_SW
  | LATCH_AUTO
deriving DecidableEq, Fintype

/-- Hardware device identity (`METRO_Device_t`, header lines 430-438). -/
inductive METRO_Device_t
  | Device_NONE
  | STM32
  | STPM32
  | STPM33
  | STPM34
  | NB_MAX_STPM
deriving DecidableEq, Fintype

/-- Array bound `NB_MAX_CHANNEL` (= 3), the value of the last
`METRO_Channel_t` enumerator, used as the first dimension of the energy
arrays in `METRO_Data_Energy_t` (header lines 502-506). -/
abbrev nbMaxChannel : Nat := 3

/-- Array bound `NB_MAX_TYPE_NRJ` (= 5), the value of the last
`METRO_Energy_selection_t` enumerator, used as the second dimension of the
energy arrays in `METRO_Data_Energy_t`. -/
abbrev nbMaxTypeNrj : Nat := 5

/-- Number of device slots (`NB_MAX_DEVICE` = 2: `HOST` and `EXT1`). -/
abbrev nbMaxDevice : Nat := 2

/-- Energy accumulator state (`METRO_Data_Energy_t`, header lines 502-506):
`int32_t energy[NB_MAX_CHANNEL][NB_MAX_TYPE_NRJ]` holding the last observed
primary register value per channel and energy kind, and
`int32_t energy_extension[NB_MAX_CHANNEL][NB_MAX_TYPE_NRJ]` holding the
software overflow-extension word. -/
structure METRO_Data_Energy_t where
  energy : Fin nbMaxChannel → Fin nbMaxTypeNrj → Int
  energy_extension : Fin nbMaxChannel → Fin nbMaxTypeNrj → Int

/-- Full scale of the 32-bit hardware energy accumulator, 2^32: one unit of
the extension word is worth one whole wrap of the primary register. -/
abbrev fullScale : Int := 4294967296

/-- Range of a signed 32-bit register value: -2^31 ≤ v < 2^31. -/
def int32Range (v : Int) : Prop := -2147483648 ≤ v ∧ v < 2147483648

instance (v : Int) : Decidable (int32Range v) := by
  unfold int32Range
  infer_instance

/-- Modelled from the spec: the body of the energy accumulation step
(`Accumulate`, spec 4.6) is not in the repository snapshot (the header only
declares `Metro_Read_energy` and the `METRO_Data_Energy_t` state).  If the
new primary register value is numerically smaller than the last observed
value (hardware counter wraparound), the extension word increments by one
before the new primary value is stored; only the one addressed
(channel, kind) cell is touched. -/
def accumulate (d : METRO_Data_Energy_t) (c : Fin nbMaxChannel)
    (k : Fin nbMaxTypeNrj) (newPrimary : Int) : METRO_Data_Energy_t where
  energy := fun c' k' => if c' = c ∧ k' = k then newPrimary else d.energy c' k'
  energy_extension := fun c' k' =>
    if c' = c ∧ k' = k then
      (if newPrimary < d.energy c k then d.energy_extension c k + 1
       else d.energy_extension c k)
    else d.energy_extension c' k'

/-- Modelled from the spec: `CombinedValue(channel, kind)` returns
`primary + extension * fullScale` (spec 4.6). -/
def combinedValue (d : METRO_Data_Energy_t) (c : Fin nbMaxChannel)
    (k : Fin nbMaxTypeNrj) : Int :=
  d.energy c k + d.energy_extension c k * fullScale

/-- Modelled from the spec: `Reset(channel)` clears both the primary
accumulator and the extension word of every energy kind of one channel in a
single step (spec 4.6). -/
def resetChannelNrj (d : METRO_Data_Energy_t) (c : Fin nbMaxChannel) :
    METRO_Data_Energy_t where
  energy := fun c' k' => if c' = c then 0 else d.energy c' k'
  energy_extension := fun c' k' => if c' = c then 0 else d.energy_extension c' k'

/-- Modelled from the spec: `Reset(All)` clears primary and extension of
every channel and kind in a single step (spec 4.6). -/
def resetAllNrj (_d : METRO_Data_Energy_t) : METRO_Data_Energy_t where
  energy := fun _ _ => 0
  energy_extension := fun _ _ => 0

/-- The all-zero accumulator state (system start-up contents of the global
`METRO_Data_Energy_t`). -/
def zeroNrjData : METRO_Data_Energy_t where
  energy := fun _ _ => 0
  energy_extension := fun _ _ => 0

/-- Feed a sequence of primary register reads to the accumulator, oldest
first. -/
def accumulateSeq (d : METRO_Data_Energy_t) (c : Fin nbMaxChannel)
    (k : Fin nbMaxTypeNrj) (reads : List Int) : METRO_Data_Energy_t :=
  reads.foldl (fun d' v => accumulate d' c k v) d

/-- Index computation for the energy arrays: the enum values of the logical
channel and the energy kind are used directly as C array subscripts; the
guard is the bounds check of the embedded indexing. -/
def energyIndex (c : METRO_Channel_t) (k : METRO_Energy_selection_t) :
    Option (Fin nbMaxChannel × Fin nbMaxTypeNrj) :=
  if h : c.toNat < nbMaxChannel ∧ k.toNat < nbMaxTypeNrj then
    some (⟨c.toNat, h.1⟩, ⟨k.toNat, h.2⟩)
  else none

/-- Guarded read of `energy[c][k]`; `none` is the out-of-range branch. -/
def energyAt (d : METRO_Data_Energy_t) (c : METRO_Channel_t)
    (k : METRO_Energy_selection_t) : Option Int :=
  (energyIndex c k).map fun p => d.energy p.1 p.2

/-- Guarded read of `energy_extension[c][k]`; `none` is the out-of-range
branch. -/
def energyExtensionAt (d : METRO_Data_Energy_t) (c : METRO_Channel_t)
    (k : METRO_Energy_selection_t) : Option Int :=
  (energyIndex c k).map fun p => d.energy_extension p.1 p.2

/-- Fixed-point scale divisor of the measurement decoder: raw register value
times calibration factor divided by `SCALE` gives the engineering unit
(spec 4.3 and the scenario of spec 8: factor 1000 turns raw 220000 into
220, hence `SCALE = 10^6`). -/
def SCALE : Nat := 1000000

/-- Modelled from the spec: the measurement decoding function (spec 4.3,
4.5); its body is not in the repository snapshot.  Fixed-point multiply by
the calibration factor, divide by `SCALE`, rounding half to even, computed
with integer division and remainder only. -/
def decode (r f : Nat) : Int :=
  if 2 * (r * f % SCALE) < SCALE then ((r * f / SCALE : Nat) : Int)
  else if SCALE < 2 * (r * f % SCALE) then ((r * f / SCALE : Nat) : Int) + 1
  else if (r * f / SCALE) % 2 = 0 then ((r * f / SCALE : Nat) : Int)
  else ((r * f / SCALE : Nat) : Int) + 1

/-- Round a rational to the nearest integer, ties to the even integer: the
mathematical statement of the round-half-to-even policy named by the spec,
written with the floor function (independent of `decode`). -/
def roundHalfEven (x : ℚ) : Int :=
  if x - ⌊x⌋ < 1 / 2 then ⌊x⌋
  else if 1 / 2 < x - ⌊x⌋ then ⌊x⌋ + 1
  else if ⌊x⌋ % 2 = 0 then ⌊x⌋ else ⌊x⌋ + 1

/-- Latch controller state of one device (spec 4.4): `Idle`, `Latching`,
`Latched`. -/
inductive LatchState
  | Idle
  | Latching
  | Latched
deriving DecidableEq, Fintype

/-- Device registry entry (`METRO_Device_Config_t`, header lines 482-498):
identity, enabled-channel bitmask, the four calibration factors per internal
channel, the chosen latch mode, and the last raw register snapshot
(`metro_stpm_reg`, modelled as a register file from address to raw word;
the transport binding fields `STPM_com`/`STPM_com_port` carry no data-layer
state and are omitted). -/
structure METRO_Device_Config_t where
  device : METRO_Device_t
  channels_mask : Nat
  factor_power_int_ch1 : Nat
  factor_energy_int_ch1 : Nat
  factor_power_int_ch2 : Nat
  factor_energy_int_ch2 : Nat
  factor_voltage_int_ch1 : Nat
  factor_current_int_ch1 : Nat
  factor_voltage_int_ch2 : Nat
  factor_current_int_ch2 : Nat
  latch_device_type : METRO_Latch_Device_Type_t
  metro_stpm_reg : Nat → Nat

/-- Whole data-layer state: the fixed-size device registry (index 0 = host,
index 1 = external chip EXT1), the global energy accumulator state, and the
latch controller state per device. -/
structure MetroState where
  devices_config : Fin nbMaxDevice → METRO_Device_Config_t
  metro_nrj_data : METRO_Data_Energy_t
  latch_state : Fin nbMaxDevice → LatchState

/-- Host device slot configuration, from the static configuration table
(spec 3: index 0 is the STM32 host, no metrology channels of its own). -/
def hostConfig : METRO_Device_Config_t where
  device := .STM32
  channels_mask := 0
  factor_power_int_ch1 := 1
  factor_energy_int_ch1 := 1
  factor_power_int_ch2 := 1
  factor_energy_int_ch2 := 1
  factor_voltage_int_ch1 := 1
  factor_current_int_ch1 := 1
  factor_voltage_int_ch2 := 1
  factor_current_int_ch2 := 1
  latch_device_type := .LATCH_SW
  metro_stpm_reg := fun _ => 0

/-- External chip slot configuration, from the static configuration table
(spec 8 scenario: channel 1 on device EXT1 with voltage factor 1000). -/
def ext1Config : METRO_Device_Config_t where
  device := .STPM34
  channels_mask := 3
  factor_power_int_ch1 := 1000
  factor_energy_int_ch1 := 1000
  factor_power_int_ch2 := 1000
  factor_energy_int_ch2 := 1000
  factor_voltage_int_ch1 := 1000
  factor_current_int_ch1 := 1000
  factor_voltage_int_ch2 := 1000
  factor_current_int_ch2 := 1000
  latch_device_type := .LATCH_SW
  metro_stpm_reg := fun _ => 0

/-- System state right after `Metro_Init`: registry from the static table,
all accumulators clear, all latch controllers idle. -/
def initialState : MetroState where
  devices_config := fun d => if d.val = 0 then hostConfig else ext1Config
  metro_nrj_data := zeroNrjData
  latch_state := fun _ => .Idle

/-- The accumulation step lifted to the whole state: only the global energy
data is touched. -/
def accumulateState (s : MetroState) (c : Fin nbMaxChannel)
    (k : Fin nbMaxTypeNrj) (v : Int) : MetroState :=
  { s with metro_nrj_data := accumulate s.metro_nrj_data c k v }

/-- Modelled from the spec: the channel mapper `Resolve` (spec 4.3); its
body and its static mapping table are not in the repository snapshot.
Per the spec-8 scenario logical channel 1 maps to device EXT1 internal
channel 1, and logical channel 2 to EXT1 internal channel 2; every other
`METRO_Channel_t` value is unmapped. -/
def resolve : METRO_Channel_t →
    Option (Fin nbMaxDevice × METRO_internal_Channel_t)
  | .CHANNEL_1 => some (1, .INT_CHANNEL_1)
  | .CHANNEL_2 => some (1, .INT_CHANNEL_2)
  | _ => none

/-- Communication-layer failure kinds (spec 7 taxonomy `LinkError{...}`,
mirroring `METRO_STPM_LINK_IRQ_Status_Type_t`). -/
inductive LinkErrorKind
  | Break
  | FrameErrorKind
  | NoiseError
  | RxOverrun
  | TxOverrun
  | SpiRxFull
  | SpiTxEmpty
  | ReadError
  | WriteError
  | Underrun
  | Overrun
deriving DecidableEq, Fintype

/-- Operation-level error taxonomy (spec 7). -/
inductive MetroError
  | UnmappedChannel
  | LinkError (e : LinkErrorKind)
  | LatchTimeout
  | Busy
deriving DecidableEq

/-- Cache one raw word into a device's last raw register snapshot. -/
def setCachedReg (cfg : METRO_Device_Config_t) (regAddr v : Nat) :
    METRO_Device_Config_t :=
  { cfg with metro_stpm_reg := fun a => if a = regAddr then v else cfg.metro_stpm_reg a }

/-- Energy calibration factor of an internal channel. -/
def energyFactor (cfg : METRO_Device_Config_t) :
    METRO_internal_Channel_t → Nat
  | .INT_CHANNEL_2 => cfg.factor_energy_int_ch2
  | _ => cfg.factor_energy_int_ch1

/-- Power calibration factor of an internal channel. -/
def powerFactor (cfg : METRO_Device_Config_t) :
    METRO_internal_Channel_t → Nat
  | .INT_CHANNEL_2 => cfg.factor_power_int_ch2
  | _ => cfg.factor_power_int_ch1

/-- Voltage calibration factor of an internal channel. -/
def voltageFactor (cfg : METRO_Device_Config_t) :
    METRO_internal_Channel_t → Nat
  | .INT_CHANNEL_2 => cfg.factor_voltage_int_ch2
  | _ => cfg.factor_voltage_int_ch1

/-- Current calibration factor of an internal channel. -/
def currentFactor (cfg : METRO_Device_Config_t) :
    METRO_internal_Channel_t → Nat
  | .INT_CHANNEL_2 => cfg.factor_current_int_ch2
  | _ => cfg.factor_current_int_ch1

/-- Modelled from the spec: common shape of every measurement read
(spec 4.5); the read bodies are not in the repository snapshot.  Resolve
the logical channel (failing with `UnmappedChannel` when unresolved), then
transfer the raw register word over the link — a transport outcome supplied
by the caller as a `LinkErrorKind`-or-word value — and only on transport
success cache the raw word and convert it; a transport failure propagates
as `LinkError` with the state untouched (all-or-nothing per read). -/
def readViaLink {α : Type} (s : MetroState) (c : METRO_Channel_t)
    (regAddr : Nat) (transport : Except LinkErrorKind Nat)
    (convert : METRO_Device_Config_t → METRO_internal_Channel_t → Nat → α) :
    MetroState × Except MetroError α :=
  match resolve c with
  | none => (s, Except.error MetroError.UnmappedChannel)
  | some (dev, intCh) =>
    match transport with
    | Except.error e => (s, Except.error (MetroError.LinkError e))
    | Except.ok raw =>
      ({ s with
          devices_config := fun d =>
            if d = dev then setCachedReg (s.devices_config d) regAddr raw
            else s.devices_config d },
       Except.ok (convert (s.devices_config dev) intCh raw))

/-- Modelled from the spec: `Metro_Read_energy` (header line 556, body not
in the snapshot): read the energy register of the resolved channel and
apply the energy calibration factor. -/
def Metro_Read_energy (s : MetroState) (c : METRO_Channel_t)
    (k : METRO_Energy_selection_t) (transport : Except LinkErrorKind Nat) :
    MetroState × Except MetroError Int :=
  readViaLink s c (84 + k.toNat) transport
    (fun cfg ic raw => decode raw (energyFactor cfg ic))

/-- Modelled from the spec: `Metro_Read_Power` (header line 560, body not
in the snapshot): read the power register of the resolved channel and apply
the power calibration factor. -/
def Metro_Read_Power (s : MetroState) (c : METRO_Channel_t)
    (pk : METRO_Power_selection_t) (transport : Except LinkErrorKind Nat) :
    MetroState × Except MetroError Int :=
  readViaLink s c (40 + pk.toNat) transport
    (fun cfg ic raw => decode raw (powerFactor cfg ic))

/-- Modelled from the spec: `Metro_Read_RMS` (header line 564, body not in
the snapshot): the RMS register packs voltage in the low 15 bits and
current above; raw mode returns the unscaled fields, otherwise the voltage
and current factors are applied. -/
def Metro_Read_RMS (s : MetroState) (c : METRO_Channel_t) (rawVsRms : Nat)
    (transport : Except LinkErrorKind Nat) :
    MetroState × Except MetroError (Int × Int) :=
  readViaLink s c 72 transport
    (fun cfg ic raw =>
      if rawVsRms = 0 then (((raw % 32768 : Nat) : Int), ((raw / 32768 : Nat) : Int))
      else (decode (raw % 32768) (voltageFactor cfg ic),
            decode (raw / 32768) (currentFactor cfg ic)))

/-- Modelled from the spec: `Metro_Read_PHI` (header line 567, body not in
the snapshot): read the phase register of the resolved channel. -/
def Metro_Read_PHI (s : MetroState) (c : METRO_Channel_t)
    (transport : Except LinkErrorKind Nat) :
    MetroState × Except MetroError Int :=
  readViaLink s c 76 transport (fun _ _ raw => (raw : Int))

/-- Modelled from the spec: `Metro_Read_Period` (header line 570, body not
in the snapshot): read the 16-bit period field of the resolved channel. -/
def Metro_Read_Period (s : MetroState) (c : METRO_Channel_t)
    (transport : Except LinkErrorKind Nat) :
    MetroState × Except MetroError Int :=
  readViaLink s c 3 transport (fun _ _ raw => ((raw % 65536 : Nat) : Int))

/-- Install the four calibration factors on one internal channel of a
registry entry. -/
def updateFactors (cfg : METRO_Device_Config_t)
    (ic : METRO_internal_Channel_t) (fp fn fv fc : Nat) :
    METRO_Device_Config_t :=
  match ic with
  | .INT_CHANNEL_2 =>
    { cfg with
        factor_power_int_ch2 := fp
        factor_energy_int_ch2 := fn
        factor_voltage_int_ch2 := fv
        factor_current_int_ch2 := fc }
  | _ =>
    { cfg with
        factor_power_int_ch1 := fp
        factor_energy_int_ch1 := fn
        factor_voltage_int_ch1 := fv
        factor_current_int_ch1 := fc }

/-- Modelled from the spec: `Metro_Set_Hardware_Factors` (header line 536,
body not in the snapshot): update the calibration of whichever
device+internal-channel the logical channel resolves to, failing with
`UnmappedChannel` when unresolved (spec 4.3). -/
def Metro_Set_Hardware_Factors (s : MetroState) (c : METRO_Channel_t)
    (fp fn fv fc : Nat) : MetroState × Except MetroError Unit :=
  match resolve c with
  | none => (s, Except.error MetroError.UnmappedChannel)
  | some (dev, ic) =>
    ({ s with
        devices_config := fun d =>
          if d = dev then updateFactors (s.devices_config d) ic fp fn fv fc
          else s.devices_config d },
     Except.ok ())

/-- Stateful wrapper of `decode`: decoding touches no state and returns the
pure decoding result. -/
def decodeWithState (s : MetroState) (r f : Nat) : MetroState × Int :=
  (s, decode r f)

/-- Poll the chip acknowledgment line up to `max` times; the oracle `ack`
tells whether the acknowledgment has arrived at poll attempt `i`. -/
def pollForAck (ack : Nat → Bool) (max : Nat) : Bool :=
  (List.range max).any ack

/-- Modelled from the spec: the bounded number of poll attempts of the
latch controller acknowledgment loop (spec 4.4 and 5: bounded-retry polls,
never indefinite blocks). -/
abbrev maxPollAttempts : Nat := 20

/-- Modelled from the spec: the latch controller trigger behind
`Metro_Set_Latch_device_type` (header line 551, body not in the snapshot;
spec 4.4).  A device already mid-latch answers `Busy`; in `LATCH_AUTO` mode
the chip free-runs and the controller only records the latch; otherwise the
mode-specific action is issued and acknowledgment polled for a bounded
number of attempts — on success the controller reaches `Latched`, on
timeout it returns `LatchTimeout` and reverts to `Idle` with no other state
touched. -/
def TriggerLatch (s : MetroState) (dev : Fin nbMaxDevice)
    (ack : Nat → Bool) : MetroState × Except MetroError Unit :=
  match s.latch_state dev with
  | .Latching => (s, Except.error MetroError.Busy)
  | _ =>
    match (s.devices_config dev).latch_device_type with
    | .LATCH_AUTO =>
      ({ s with latch_state := fun d => if d = dev then .Latched else s.latch_state d },
       Except.ok ())
    | _ =>
      if pollForAck ack maxPollAttempts then
        ({ s with latch_state := fun d => if d = dev then .Latched else s.latch_state d },
         Except.ok ())
      else
        ({ s with latch_state := fun d => if d = dev then .Idle else s.latch_state d },
         Except.error MetroError.LatchTimeout)

/-- Per-channel electrical status conditions (`METRO_Status_Type_t`,
header lines 331-355), `ALL_STATUS = 0` then 21 named conditions. -/
inductive METRO_Status_Type_t
  | ALL_STATUS
  | STATUS_REFRESHED
  | STATUS_TAMPER_DETECTED
  | STATUS_TAMPER_OR_WRONG
  | STATUS_VOLTAGE_SWELL_DOWN
  | STATUS_VOLTAGE_SWELL_UP
  | STATUS_VOLTAGE_SAG_DOWN
  | STATUS_VOLTAGE_SAG_UP
  | STATUS_VOLTAGE_PERIOD_STATUS
  | STATUS_VOLTAGE_SIGNAL_STUCK
  | STATUS_CURRENT_OVERFLOW_APPARENT_NRJ
  | STATUS_CURRENT_OVERFLOW_REACTIVE_NRJ
  | STATUS_CURRENT_OVERFLOW_FUNDAMENTAL_NRJ
  | STATUS_CURRENT_OVERFLOW_ACTIVE_NRJ
  | STATUS_CURRENT_SIGN_APPARENT_POWER
  | STATUS_CURRENT_SIGN_CHANGE_REACTIVE_POWER
  | STATUS_CURRENT_SIGN_CHANGE_FUNDAMENTAL_POWER
  | STATUS_CURRENT_SIGN_CHANGE_ACTIVE_POWER
  | STATUS_CURRENT_SWELL_DOWN
  | STATUS_CURRENT_SWELL_UP
  | STATUS_CURRENT_NAH_TMP
  | STATUS_CURRENT_SIGNAL_STUCK
deriving DecidableEq, Fintype

/-- The C numeric value of each `METRO_Status_Type_t` enumerator. -/
def METRO_Status_Type_t.toNat : METRO_Status_Type_t → Nat
  | .ALL_STATUS => 0
  | .STATUS_REFRESHED => 1
  | .STATUS_TAMPER_DETECTED => 2
  | .STATUS_TAMPER_OR_WRONG => 3
  | .STATUS_VOLTAGE_SWELL_DOWN => 4
  | .STATUS_VOLTAGE_SWELL_UP => 5
  | .STATUS_VOLTAGE_SAG_DOWN => 6
  | .STATUS_VOLTAGE_SAG_UP => 7
  | .STATUS_VOLTAGE_PERIOD_STATUS => 8
  | .STATUS_VOLTAGE_SIGNAL_STUCK => 9
  | .STATUS_CURRENT_OVERFLOW_APPARENT_NRJ => 10
  | .STATUS_CURRENT_OVERFLOW_REACTIVE_NRJ => 11
  | .STATUS_CURRENT_OVERFLOW_FUNDAMENTAL_NRJ => 12
  | .STATUS_CURRENT_OVERFLOW_ACTIVE_NRJ => 13
  | .STATUS_CURRENT_SIGN_APPARENT_POWER => 14
  | .STATUS_CURRENT_SIGN_CHANGE_REACTIVE_POWER => 15
  | .STATUS_CURRENT_SIGN_CHANGE_FUNDAMENTAL_POWER => 16
  | .STATUS_CURRENT_SIGN_CHANGE_ACTIVE_POWER => 17
  | .STATUS_CURRENT_SWELL_DOWN => 18
  | .STATUS_CURRENT_SWELL_UP => 19
  | .STATUS_CURRENT_NAH_TMP => 20
  | .STATUS_CURRENT_SIGNAL_STUCK => 21

/-- Per-channel live events (`METRO_Live_Event_Type_t`, header lines
302-325), `ALL_LIVE_EVENTS = 0` then 20 named events. -/
inductive METRO_Live_Event_Type_t
  | ALL_LIVE_EVENTS
  | LIVE_EVENT_REFRESHED
  | LIVE_EVENT_WRONG_INSERTION
  | LIVE_EVENT_VOLTAGE_SAG
  | LIVE_EVENT_VOLTAGE_SWELL
  | LIVE_EVENT_CURRENT_SWELL
  | LIVE_EVENT_VOLTAGE_ZCR
  | LIVE_EVENT_CURRENT_ZCR
  | LIVE_EVENT_VOLTAGE_PERIOD_STATUS
  | LIVE_EVENT_VOLTAGE_SIGNAL_STUCK
  | LIVE_EVENT_CURRENT_SIGNAL_STUCK
  | LIVE_EVENT_CURRENT_TAMPER
  | LIVE_EVENT_CURRENT_SIGN_CHANGE_APPARENT_POWER
  | LIVE_EVENT_CURRENT_SIGN_CHANGE_REACTIVE_POWER
  | LIVE_EVENT_CURRENT_SIGN_CHANGE_FUNDAMENTAL_POWER
  | LIVE_EVENT_CURRENT_SIGN_CHANGE_ACTIVE_POWER
  | LIVE_EVENT_CURRENT_OVERFLOW_APPARENT_NRJ
  | LIVE_EVENT_CURRENT_OVERFLOW_REACTIVE_NRJ
  | LIVE_EVENT_CURRENT_OVERFLOW_FUNDAMENTAL_NRJ
  | LIVE_EVENT_CURRENT_OVERFLOW_ACTIVE_NRJ
  | LIVE_EVENT_CURRENT_NAH
deriving DecidableEq, Fintype

/-- The C numeric value of each `METRO_Live_Event_Type_t` enumerator. -/
def METRO_Live_Event_Type_t.toNat : METRO_Live_Event_Type_t → Nat
  | .ALL_LIVE_EVENTS => 0
  | .LIVE_EVENT_REFRESHED => 1
  | .LIVE_EVENT_WRONG_INSERTION => 2
  | .LIVE_EVENT_VOLTAGE_SAG => 3
  | .LIVE_EVENT_VOLTAGE_SWELL => 4
  | .LIVE_EVENT_CURRENT_SWELL => 5
  | .LIVE_EVENT_VOLTAGE_ZCR => 6
  | .LIVE_EVENT_CURRENT_ZCR => 7
  | .LIVE_EVENT_VOLTAGE_PERIOD_STATUS => 8
  | .LIVE_EVENT_VOLTAGE_SIGNAL_STUCK => 9
  | .LIVE_EVENT_CURRENT_SIGNAL_STUCK => 10
  | .LIVE_EVENT_CURRENT_TAMPER => 11
  | .LIVE_EVENT_CURRENT_SIGN_CHANGE_APPARENT_POWER => 12
  | .LIVE_EVENT_CURRENT_SIGN_CHANGE_REACTIVE_POWER => 13
  | .LIVE_EVENT_CURRENT_SIGN_CHANGE_FUNDAMENTAL_POWER => 14
  | .LIVE_EVENT_CURRENT_SIGN_CHANGE_ACTIVE_POWER => 15
  | .LIVE_EVENT_CURRENT_OVERFLOW_APPARENT_NRJ => 16
  | .LIVE_EVENT_CURRENT_OVERFLOW_REACTIVE_NRJ => 17
  | .LIVE_EVENT_CURRENT_OVERFLOW_FUNDAMENTAL_NRJ => 18
  | .LIVE_EVENT_CURRENT_OVERFLOW_ACTIVE_NRJ => 19
  | .LIVE_EVENT_CURRENT_NAH => 20

/-- Communication link status conditions
(`METRO_STPM_LINK_IRQ_Status_Type_t`, header lines 361-378),
`ALL_STPM_LINK_STATUS = 0` then 14 named conditions. -/
inductive METRO_STPM_LINK_IRQ_Status_Type_t
  | ALL_STPM_LINK_STATUS
  | STATUS_STPM_UART_LINK_BREAK
  | STATUS_STPM_UART_LINK_CRC_ERROR
  | STATUS_STPM_UART_LINK_TIME_OUT_ERROR
  | STATUS_STPM_UART_LINK_FRAME_ERROR
  | STATUS_STPM_UART_LINK_NOISE_ERROR
  | STATUS_STPM_UART_LINK_RX_OVERRUN
  | STATUS_STPM_UART_LINK_TX_OVERRUN
  | STATUS_STPM_SPI_LINK_RX_FULL
  | STATUS_STPM_SPI_LINK_TX_EMPTY
  | STATUS_STPM_LINK_READ_ERROR
  | STATUS_STPM_LINK_WRITE_ERROR
  | STATUS_STPM_SPI_LINK_CRC_ERROR
  | STATUS_STPM_SPI_LINK_UNDERRUN
  | STATUS_STPM_SPI_LINK_OVERRRUN
deriving DecidableEq, Fintype

/-- The C numeric value of each `METRO_STPM_LINK_IRQ_Status_Type_t`
enumerator. -/
def METRO_STPM_LINK_IRQ_Status_Type_t.toNat :
    METRO_STPM_LINK_IRQ_Status_Type_t → Nat
  | .ALL_STPM_LINK_STATUS => 0
  | .STATUS_STPM_UART_LINK_BREAK => 1
  | .STATUS_STPM_UART_LINK_CRC_ERROR => 2
  | .STATUS_STPM_UART_LINK_TIME_OUT_ERROR => 3
  | .STATUS_STPM_UART_LINK_FRAME_ERROR => 4
  | .STATUS_STPM_UART_LINK_NOISE_ERROR => 5
  | .STATUS_STPM_UART_LINK_RX_OVERRUN => 6
  | .STATUS_STPM_UART_LINK_TX_OVERRUN => 7
  | .STATUS_STPM_SPI_LINK_RX_FULL => 8
  | .STATUS_STPM_SPI_LINK_TX_EMPTY => 9
  | .STATUS_STPM_LINK_READ_ERROR => 10
  | .STATUS_STPM_LINK_WRITE_ERROR => 11
  | .STATUS_STPM_SPI_LINK_CRC_ERROR => 12
  | .STATUS_STPM_SPI_LINK_UNDERRUN => 13
  | .STATUS_STPM_SPI_LINK_OVERRRUN => 14

/-- Status/event snapshot of one device (spec 3): the last-fetched
electrical status word, the live-event word, and the separate link-status
word. -/
structure METRO_Status_State_t where
  status_word : Nat
  live_event_word : Nat
  link_status_word : Nat

/-- Modelled from the spec: bit mask of one electrical status condition in
the status word; the concrete register layout lives in the missing chip
register map, so condition `i` is assigned bit `i - 1`, with `ALL_STATUS`
selecting all 21 condition bits. -/
def statusBitMask (t : METRO_Status_Type_t) : Nat :=
  match t with
  | .ALL_STATUS => 2 ^ 21 - 1
  | _ => 2 ^ (t.toNat - 1)

/-- Modelled from the spec: bit mask of one live event in the live-event
word, with `ALL_LIVE_EVENTS` selecting all 20 event bits. -/
def liveEventBitMask (t : METRO_Live_Event_Type_t) : Nat :=
  match t with
  | .ALL_LIVE_EVENTS => 2 ^ 20 - 1
  | _ => 2 ^ (t.toNat - 1)

/-- Modelled from the spec: bit mask of one link status condition in the
link-status word, with `ALL_STPM_LINK_STATUS` selecting all 14 condition
bits. -/
def linkStatusBitMask (t : METRO_STPM_LINK_IRQ_Status_Type_t) : Nat :=
  match t with
  | .ALL_STPM_LINK_STATUS => 2 ^ 14 - 1
  | _ => 2 ^ (t.toNat - 1)

/-- Modelled from the spec: `QueryStatus` (spec 4.7; body not in the
snapshot) masks the device's last-fetched electrical status word. -/
def QueryStatus (d : METRO_Status_State_t) (t : METRO_Status_Type_t) : Nat :=
  d.status_word &&& statusBitMask t

/-- Modelled from the spec: `QueryLiveEvent` (spec 4.7; body not in the
snapshot) masks the device's last-fetched live-event word. -/
def QueryLiveEvent (d : METRO_Status_State_t)
    (t : METRO_Live_Event_Type_t) : Nat :=
  d.live_event_word &&& liveEventBitMask t

/-- Modelled from the spec: `QueryLinkStatus` (spec 4.7; body not in the
snapshot) masks the device's separate link-status word. -/
def QueryLinkStatus (d : METRO_Status_State_t)
    (t : METRO_STPM_LINK_IRQ_Status_Type_t) : Nat :=
  d.link_status_word &&& linkStatusBitMask t

/-- Frame parsing failures (spec 4.1 taxonomy `FrameError{...}`). -/
inductive FrameError
  | CrcError
  | Truncated
  | MisalignedLength
deriving DecidableEq, Fintype

/-- Modelled from the spec: the cumulative integrity check byte of the
register-block protocol (spec 6), computed across address + count +
payload bytes. -/
def checksum (bs : List Nat) : Nat := bs.sum % 256

/-- Serialize one 32-bit register word into four bytes, least significant
byte first (spec design note: explicit serializer with defined byte
order). -/
def wordToBytes (w : Nat) : List Nat :=
  [w % 256, w / 256 % 256, w / 65536 % 256, w / 16777216 % 256]

/-- Deserialize four bytes, least significant first, into one word. -/
def bytesToWord (b0 b1 b2 b3 : Nat) : Nat :=
  b0 + 256 * b1 + 65536 * b2 + 16777216 * b3

/-- Serialize a word list into the payload byte sequence. -/
def encodeWords : List Nat → List Nat
  | [] => []
  | w :: ws => wordToBytes w ++ encodeWords ws

/-- Deserialize a payload byte sequence back into words; `none` when the
byte count is not a multiple of four. -/
def decodeWords : List Nat → Option (List Nat)
  | [] => some []
  | b0 :: b1 :: b2 :: b3 :: rest =>
    (decodeWords rest).map fun ws => bytesToWord b0 b1 b2 b3 :: ws
  | _ => none

/-- Modelled from the spec: `BuildWriteFrame` behind
`Metro_Write_Block_to_Device` (header line 575, body not in the snapshot):
`[device offset address][word count][word count × 4 payload bytes][check]`
with the cumulative check byte over address + count + payload (spec 6). -/
def BuildWriteFrame (addr : Nat) (words : List Nat) : List Nat :=
  (addr :: words.length :: encodeWords words) ++
    [checksum (addr :: words.length :: encodeWords words)]

/-- Modelled from the spec: `ParseFrame` (spec 4.1; body not in the
snapshot).  A frame shorter than address + count + check is `Truncated`;
the integrity check over every byte but the last is verified first, a
mismatch is `CrcError`; then the payload length must be four times the
count byte, else `MisalignedLength`; the payload words are returned. -/
def ParseFrame (bs : List Nat) : Except FrameError (List Nat) :=
  if bs.length < 3 then Except.error FrameError.Truncated
  else if checksum bs.dropLast ≠ bs.getD (bs.length - 1) 0 then
    Except.error FrameError.CrcError
  else
    match bs.dropLast with
    | _addr :: cnt :: payload =>
      if payload.length ≠ 4 * cnt then Except.error FrameError.MisalignedLength
      else
        match decodeWords payload with
        | some ws => Except.ok ws
        | none => Except.error FrameError.MisalignedLength
    | _ => Except.error FrameError.Truncated

/-- Replace the byte at position `i` of a frame (single-byte corruption). -/
def corruptAt (bs : List Nat) (i : Nat) (b : Nat) : List Nat := bs.set i b

/-- Claim C9: for every logical channel in {CHANNEL_1, CHANNEL_2} and every
energy kind in {E_W_ACTIVE, E_F_ACTIVE, E_REACTIVE, E_APPARENT}, the enum
values index the `energy` and `energy_extension` arrays (declared with
bounds NB_MAX_CHANNEL = 3 and NB_MAX_TYPE_NRJ = 5) in bounds, so the
out-of-range branch of the embedded indexing is unreachable under that
precondition. -/
theorem energy_indexing_in_bounds (d : METRO_Data_Energy_t)
    (c : METRO_Channel_t) (k : METRO_Energy_selection_t)
    (hc : c = .CHANNEL_1 ∨ c = .CHANNEL_2)
    (hk : k = .E_W_ACTIVE ∨ k = .E_F_ACTIVE ∨ k = .E_REACTIVE ∨
      k = .E_APPARENT) :
    c.toNat < nbMaxChannel ∧ k.toNat < nbMaxTypeNrj ∧
    (energyIndex c k).isSome = true ∧
    (energyAt d c k).isSome = true ∧
    (energyExtensionAt d c k).isSome = true ∧
    nbMaxChannel = METRO_Channel_t.toNat .NB_MAX_CHANNEL ∧
    nbMaxTypeNrj = METRO_Energy_selection_t.toNat .NB_MAX_TYPE_NRJ := by
  rcases hc with rfl | rfl <;> rcases hk with rfl | rfl | rfl | rfl <;>
    exact ⟨by decide, by decide, by decide, rfl, rfl, rfl, rfl⟩

/-- Witness for C9: channel 1, active energy, on the zero accumulator
state. -/
theorem energy_indexing_in_bounds_witness :
    (energyAt zeroNrjData .CHANNEL_1 .E_W_ACTIVE).isSome = true :=
  (energy_indexing_in_bounds zeroNrjData .CHANNEL_1 .E_W_ACTIVE (Or.inl rfl)
    (Or.inl rfl)).2.2.2.1

/-- Claim C5 counterexample: the claim quantifies over four logical
channels 1..4, but the logical channel type `METRO_Channel_t` declared in
the header has no channel-3 or channel-4 value — numeric value 3 is the
bound sentinel `NB_MAX_CHANNEL` (itself unmapped) and numeric value 4 is
not an enumerator at all. -/
theorem channel_enum_lacks_channels_3_and_4 :
    channelOfNat 3 = some METRO_Channel_t.NB_MAX_CHANNEL ∧
    channelOfNat 4 = none ∧
    resolve METRO_Channel_t.NB_MAX_CHANNEL = none := by decide

/-- Helper for C5: per-device injectivity of the channel map, checked over
the whole finite mapping. -/
theorem resolve_inj_helper :
    ∀ (c1 c2 : METRO_Channel_t) (d : Fin nbMaxDevice)
      (i1 i2 : METRO_internal_Channel_t), c1 ≠ c2 →
      resolve c1 = some (d, i1) → resolve c2 = some (d, i2) → i1 ≠ i2 := by
  decide

/-- Claim C5 (amended): Resolve is defined on the logical channel type,
whose genuine measurement channels are CHANNEL_1 and CHANNEL_2 (the
declared enum has no channel-3 or channel-4 value); every logical channel
yields either exactly one (device index, internal channel) pair or is
unmapped, and two distinct logical channels resolve to the same device only
with distinct internal channels. -/
theorem resolve_exactly_one_or_unmapped (c c1 c2 : METRO_Channel_t)
    (d : Fin nbMaxDevice) (i1 i2 : METRO_internal_Channel_t)
    (hne : c1 ≠ c2) (h1 : resolve c1 = some (d, i1))
    (h2 : resolve c2 = some (d, i2)) :
    (resolve c = none ∨
      ∃ p, resolve c = some p ∧ ∀ q, resolve c = some q → q = p) ∧
    i1 ≠ i2 := by
  constructor
  · rcases hp : resolve c with _ | p
    · exact Or.inl rfl
    · refine Or.inr ⟨p, rfl, ?_⟩
      intro q hq
      exact (Option.some_inj.mp hq).symm
  · exact resolve_inj_helper c1 c2 d i1 i2 hne h1 h2

/-- Witness for C5 (amended): channels 1 and 2 both resolve to device 1
with distinct internal channels. -/
theorem resolve_exactly_one_or_unmapped_witness :
    METRO_internal_Channel_t.INT_CHANNEL_1 ≠
      METRO_internal_Channel_t.INT_CHANNEL_2 :=
  (resolve_exactly_one_or_unmapped .CHANNEL_NONE .CHANNEL_1 .CHANNEL_2 1
    .INT_CHANNEL_1 .INT_CHANNEL_2 (by decide) rfl rfl).2

/-- Claim C8: QueryStatus and QueryLiveEvent depend only on the device's
electrical-domain words and QueryLinkStatus only on the link-status word:
states agreeing on the electrical words give equal electrical query results
whatever their link words, and symmetrically, so the two bitfield domains
are never merged and stay independently queryable. -/
theorem status_domains_independent (d1 d2 d3 d4 : METRO_Status_State_t)
    (t : METRO_Status_Type_t) (lv : METRO_Live_Event_Type_t)
    (lk : METRO_STPM_LINK_IRQ_Status_Type_t)
    (hs : d1.status_word = d2.status_word)
    (hlv : d1.live_event_word = d2.live_event_word)
    (hk : d3.link_status_word = d4.link_status_word) :
    QueryStatus d1 t = QueryStatus d2 t ∧
    QueryLiveEvent d1 lv = QueryLiveEvent d2 lv ∧
    QueryLinkStatus d3 lk = QueryLinkStatus d4 lk := by
  unfold QueryStatus QueryLiveEvent QueryLinkStatus
  rw [hs, hlv, hk]
  exact ⟨rfl, rfl, rfl⟩

/-- Witness for C8: two states equal on the electrical words but with
different link words give the same electrical status answer. -/
theorem status_domains_independent_witness :
    QueryStatus ⟨5, 6, 7⟩ .STATUS_TAMPER_DETECTED =
      QueryStatus ⟨5, 6, 999⟩ .STATUS_TAMPER_DETECTED :=
  (status_domains_independent ⟨5, 6, 7⟩ ⟨5, 6, 999⟩ ⟨1, 2, 7⟩ ⟨100, 200, 7⟩
    .STATUS_TAMPER_DETECTED .ALL_LIVE_EVENTS .ALL_STPM_LINK_STATUS
    rfl rfl rfl).1

/-- Claim C10: an accumulation step on one (channel, kind) pair mutates
only that pair's primary accumulator and extension word: every other pair,
the whole device registry (calibration factors, channel mask, latch mode,
cached registers) and the latch controller state are unchanged. -/
theorem accumulate_frame_condition (s : MetroState)
    (c c' : Fin nbMaxChannel) (k k' : Fin nbMaxTypeNrj) (v : Int)
    (h : ¬(c' = c ∧ k' = k)) :
    (accumulateState s c k v).metro_nrj_data.energy c' k' =
      s.metro_nrj_data.energy c' k' ∧
    (accumulateState s c k v).metro_nrj_data.energy_extension c' k' =
      s.metro_nrj_data.energy_extension c' k' ∧
    (accumulateState s c k v).devices_config = s.devices_config ∧
    (accumulateState s c k v).latch_state = s.latch_state := by
  refine ⟨?_, ?_, rfl, rfl⟩ <;> simp [accumulateState, accumulate, h]

/-- Witness for C10: accumulating on channel index 1 leaves channel index 2
untouched in the initial state. -/
theorem accumulate_frame_condition_witness :
    (accumulateState initialState 1 1 7).metro_nrj_data.energy 2 1 =
      initialState.metro_nrj_data.energy 2 1 :=
  (accumulate_frame_condition initialState 1 2 1 1 7 (by decide)).1

/-- Claim C1: when the accumulator observes a new primary value smaller
than the last observed one, the extension word increments by exactly one
before the new primary value is stored, `combinedValue` returns
`primary + extension * fullScale`, and for the observed primary sequence
[100, 250, 50, 300] from the cleared state the extension increments exactly
once and the combined value afterwards equals `300 + 1 * fullScale`. -/
theorem accumulate_overflow_extension (d : METRO_Data_Energy_t)
    (c : Fin nbMaxChannel) (k : Fin nbMaxTypeNrj) (v : Int)
    (h : v < d.energy c k) :
    (accumulate d c k v).energy_extension c k = d.energy_extension c k + 1 ∧
    (accumulate d c k v).energy c k = v ∧
    combinedValue (accumulate d c k v) c k =
      v + (d.energy_extension c k + 1) * fullScale ∧
    (accumulateSeq zeroNrjData c k [100, 250, 50, 300]).energy_extension
      c k = 1 ∧
    combinedValue (accumulateSeq zeroNrjData c k [100, 250, 50, 300]) c k =
      300 + 1 * fullScale := by
  refine ⟨?_, ?_, ?_, ?_, ?_⟩
  · simp [accumulate, h]
  · simp [accumulate]
  · simp [combinedValue, accumulate, h]
  · norm_num [accumulateSeq, accumulate, zeroNrjData]
  · norm_num [accumulateSeq, accumulate, combinedValue, zeroNrjData]

/-- Witness for C1: the cleared state stores primary 0, so a negative read
wraps and increments the extension to 1. -/
theorem accumulate_overflow_extension_witness :
    (accumulate zeroNrjData 1 1 (-5)).energy_extension 1 1 =
      zeroNrjData.energy_extension 1 1 + 1 :=
  (accumulate_overflow_extension zeroNrjData 1 1 (-5) (by decide)).1

/-- Claim C6: a measurement read (ReadEnergy, ReadPower, ReadRms,
ReadPhase, ReadPeriod) or SetFactors on a logical channel that does not
resolve fails with UnmappedChannel leaving the state untouched, and a
transport failure during a read propagates as LinkError with no partial
conversion performed (state untouched, all-or-nothing per read). -/
theorem metro_read_error_paths (s : MetroState) (c0 c1 : METRO_Channel_t)
    (dev : Fin nbMaxDevice) (ic : METRO_internal_Channel_t)
    (k : METRO_Energy_selection_t) (pk : METRO_Power_selection_t)
    (rvr fp fn fv fc : Nat) (t : Except LinkErrorKind Nat)
    (e : LinkErrorKind)
    (h0 : resolve c0 = none) (h1 : resolve c1 = some (dev, ic)) :
    Metro_Read_energy s c0 k t =
      (s, Except.error MetroError.UnmappedChannel) ∧
    Metro_Read_Power s c0 pk t =
      (s, Except.error MetroError.UnmappedChannel) ∧
    Metro_Read_RMS s c0 rvr t =
      (s, Except.error MetroError.UnmappedChannel) ∧
    Metro_Read_PHI s c0 t = (s, Except.error MetroError.UnmappedChannel) ∧
    Metro_Read_Period s c0 t =
      (s, Except.error MetroError.UnmappedChannel) ∧
    Metro_Set_Hardware_Factors s c0 fp fn fv fc =
      (s, Except.error MetroError.UnmappedChannel) ∧
    Metro_Read_energy s c1 k (Except.error e) =
      (s, Except.error (MetroError.LinkError e)) ∧
    Metro_Read_Power s c1 pk (Except.error e) =
      (s, Except.error (MetroError.LinkError e)) ∧
    Metro_Read_RMS s c1 rvr (Except.error e) =
      (s, Except.error (MetroError.LinkError e)) ∧
    Metro_Read_PHI s c1 (Except.error e) =
      (s, Except.error (MetroError.LinkError e)) ∧
    Metro_Read_Period s c1 (Except.error e) =
      (s, Except.error (MetroError.LinkError e)) := by
  refine ⟨?_, ?_, ?_, ?_, ?_, ?_, ?_, ?_, ?_, ?_, ?_⟩ <;>
    simp [Metro_Read_energy, Metro_Read_Power, Metro_Read_RMS,
      Metro_Read_PHI, Metro_Read_Period, Metro_Set_Hardware_Factors,
      readViaLink, h0, h1]

/-- Witness for C6: reading energy on the unmapped CHANNEL_NONE from the
initial state fails with UnmappedChannel and leaves the state unchanged. -/
theorem metro_read_error_paths_witness :
    Metro_Read_energy initialState .CHANNEL_NONE .E_W_ACTIVE
      (Except.ok 0) =
      (initialState, Except.error MetroError.UnmappedChannel) :=
  (metro_read_error_paths initialState .CHANNEL_NONE .CHANNEL_1 1
    .INT_CHANNEL_1 .E_W_ACTIVE .W_ACTIVE 0 0 0 0 0 (Except.ok 0)
    .Break rfl rfl).1

/-- Helper for C2: one accumulation step of an in-range register read never
decreases the combined value — the wraparound branch adds one full scale,
more than any in-range backwards jump of the primary. -/
theorem combined_step_le (d : METRO_Data_Energy_t) (c : Fin nbMaxChannel)
    (k : Fin nbMaxTypeNrj) (v : Int)
    (hlast : int32Range (d.energy c k)) (hv : int32Range v) :
    combinedValue d c k ≤ combinedValue (accumulate d c k v) c k := by
  rcases hlast with ⟨_, hlast2⟩
  rcases hv with ⟨hv1, _⟩
  simp only [combinedValue, accumulate, and_self, if_true, if_pos rfl]
  split_ifs with hlt
  · have : (d.energy_extension c k + 1) * fullScale =
        d.energy_extension c k * fullScale + fullScale := by ring
    rw [this]
    simp only [fullScale] at *
    omega
  · simp only [fullScale] at *
    omega

/-- Helper for C2: after a step the stored primary is the read value. -/
theorem accumulate_energy_self (d : METRO_Data_Energy_t)
    (c : Fin nbMaxChannel) (k : Fin nbMaxTypeNrj) (v : Int) :
    (accumulate d c k v).energy c k = v := by
  simp [accumulate]

/-- Helper for C2: the combined value is monotone along any sequence of
in-range primary reads. -/
theorem combined_seq_le (c : Fin nbMaxChannel) (k : Fin nbMaxTypeNrj)
    (reads : List Int) :
    ∀ d : METRO_Data_Energy_t, int32Range (d.energy c k) →
      (∀ v ∈ reads, int32Range v) →
      combinedValue d c k ≤ combinedValue (accumulateSeq d c k reads) c k := by
  induction reads with
  | nil => intro d _ _; simp [accumulateSeq]
  | cons v vs ih =>
    intro d hd hr
    have hv : int32Range v := hr v (by simp)
    have h1 := combined_step_le d c k v hd hv
    have h2 : int32Range ((accumulate d c k v).energy c k) := by
      rw [accumulate_energy_self]; exact hv
    have h3 := ih (accumulate d c k v) h2 (fun x hx => hr x (by simp [hx]))
    have hseq : accumulateSeq d c k (v :: vs) =
        accumulateSeq (accumulate d c k v) c k vs := by
      simp [accumulateSeq]
    rw [hseq]
    exact le_trans h1 h3

/-- Claim C2: for any sequence of in-range primary register reads the
combined value is monotone non-decreasing, and an explicit Reset of the
channel (or of all channels) clears primary and extension together in one
step. -/
theorem combinedValue_monotone (d : METRO_Data_Energy_t)
    (c : Fin nbMaxChannel) (k : Fin nbMaxTypeNrj) (reads : List Int)
    (hd : int32Range (d.energy c k)) (hr : ∀ v ∈ reads, int32Range v) :
    combinedValue d c k ≤ combinedValue (accumulateSeq d c k reads) c k ∧
    (resetChannelNrj d c).energy c k = 0 ∧
    (resetChannelNrj d c).energy_extension c k = 0 ∧
    (resetAllNrj d).energy c k = 0 ∧
    (resetAllNrj d).energy_extension c k = 0 := by
  refine ⟨combined_seq_le c k reads d hd hr, ?_, ?_, rfl, rfl⟩ <;>
    simp [resetChannelNrj]

/-- Witness for C2: the wraparound sequence from the cleared state. -/
theorem combinedValue_monotone_witness :
    combinedValue zeroNrjData 1 1 ≤
      combinedValue (accumulateSeq zeroNrjData 1 1 [100, 250, 50, 300]) 1 1 :=
  (combinedValue_monotone zeroNrjData 1 1 [100, 250, 50, 300] (by decide)
    (by decide)).1

/-- Helper for C7: an acknowledgment oracle that stays false through the
poll budget makes the bounded poll fail. -/
theorem pollForAck_eq_false (ack : Nat → Bool)
    (hack : ∀ i, i < maxPollAttempts → ack i = false) :
    pollForAck ack maxPollAttempts = false := by
  rw [pollForAck, List.any_eq_false]
  intro i hi
  simp [hack i (List.mem_range.mp hi)]

/-- Claim C7: if the acknowledgment does not arrive within the bounded
number of poll attempts, TriggerLatch returns LatchTimeout and the
controller reverts to Idle with all other system state (registry,
accumulators, cached values) exactly as before the trigger. -/
theorem triggerLatch_timeout_reverts (s : MetroState)
    (dev : Fin nbMaxDevice) (ack : Nat → Bool)
    (hidle : s.latch_state dev = .Idle)
    (hmode : (s.devices_config dev).latch_device_type = .LATCH_SW)
    (hack : ∀ i, i < maxPollAttempts → ack i = false) :
    TriggerLatch s dev ack = (s, Except.error MetroError.LatchTimeout) := by
  have hpoll := pollForAck_eq_false ack hack
  have hfun : (fun d => if d = dev then LatchState.Idle
      else s.latch_state d) = s.latch_state := by
    funext d
    by_cases hd : d = dev
    · subst hd; simp [hidle]
    · simp [hd]
  simp only [TriggerLatch, hidle, hmode, hpoll, Bool.false_eq_true,
    if_false, hfun]

/-- Witness for C7: triggering the software latch on device 1 of the
initial state with a dead acknowledgment line times out and leaves the
state unchanged. -/
theorem triggerLatch_timeout_reverts_witness :
    TriggerLatch initialState 1 (fun _ => false) =
      (initialState, Except.error MetroError.LatchTimeout) :=
  triggerLatch_timeout_reverts initialState 1 (fun _ => false) rfl rfl
    (fun _ _ => rfl)

/-- Helper for C3: replacing one list element trades its old value for the
new one in the sum. -/
theorem sum_set_getD (l : List Nat) :
    ∀ i b, i < l.length → (l.set i b).sum + l.getD i 0 = l.sum + b := by
  induction l with
  | nil => intro i b h; simp at h
  | cons x xs ih =>
    intro i b h
    cases i with
    | zero => simp [List.set]; omega
    | succ n =>
      have hn : n < xs.length := by simpa using h
      have := ih n b hn
      simp only [List.set, List.sum_cons, List.getD_cons_succ]
      omega

/-- Helper for C3: setting the final element of a concatenation. -/
theorem set_concat_length (l : List Nat) (a b : Nat) :
    (l ++ [a]).set l.length b = l ++ [b] := by
  induction l with
  | nil => rfl
  | cons x xs ih => simp [List.set, ih]

/-- Helper for C3: reading the final element of a concatenation. -/
theorem getD_concat_length (l : List Nat) (a : Nat) :
    (l ++ [a]).getD l.length 0 = a := by
  induction l with
  | nil => rfl
  | cons x xs ih => simp [ih]

/-- Helper for C3: the payload is four bytes per word. -/
theorem encodeWords_length (ws : List Nat) :
    (encodeWords ws).length = 4 * ws.length := by
  induction ws with
  | nil => rfl
  | cons w ws ih => simp [encodeWords, wordToBytes, ih]; omega

/-- Helper for C3: every payload byte is below 256. -/
theorem mem_encodeWords_lt (ws : List Nat) :
    ∀ x ∈ encodeWords ws, x < 256 := by
  induction ws with
  | nil => intro x hx; simp [encodeWords] at hx
  | cons w ws ih =>
    intro x hx
    simp only [encodeWords, wordToBytes, List.mem_append] at hx
    rcases hx with hx | hx
    · rcases hx with hx -- membership in the 4-element list
      · simp at hx
        rcases hx with rfl | rfl | rfl | rfl <;> exact Nat.mod_lt _ (by norm_num)
    · exact ih x hx

/-- Helper for C3: deserialization inverts serialization for 32-bit
words. -/
theorem decodeWords_encodeWords (ws : List Nat)
    (h32 : ∀ w ∈ ws, w < 4294967296) :
    decodeWords (encodeWords ws) = some ws := by
  induction ws with
  | nil => rfl
  | cons w ws ih =>
    have hw : w < 4294967296 := h32 w (by simp)
    have hword : bytesToWord (w % 256) (w / 256 % 256) (w / 65536 % 256)
        (w / 16777216 % 256) = w := by
      unfold bytesToWord
      omega
    have hrest := ih (fun x hx => h32 x (by simp [hx]))
    simp [encodeWords, wordToBytes, decodeWords, hrest, hword]

/-- Helper for C3: the check byte is itself a byte. -/
theorem checksum_lt (l : List Nat) : checksum l < 256 :=
  Nat.mod_lt _ (by norm_num)

/-- Helper for C3: within protocol limits every byte of a built frame is
below 256. -/
theorem mem_BuildWriteFrame_lt (addr : Nat) (ws : List Nat)
    (ha : addr < 256) (hl : ws.length < 256) :
    ∀ x ∈ BuildWriteFrame addr ws, x < 256 := by
  intro x hx
  simp only [BuildWriteFrame, List.mem_append, List.mem_cons,
    List.not_mem_nil, or_false] at hx
  rcases hx with (rfl | rfl | hx) | rfl
  · exact ha
  · exact hl
  · exact mem_encodeWords_lt ws x hx
  · exact checksum_lt _

/-- Helper for C3: a built frame parses back to exactly the words it was
built from. -/
theorem ParseFrame_BuildWriteFrame (addr : Nat) (ws : List Nat)
    (h32 : ∀ w ∈ ws, w < 4294967296) :
    ParseFrame (BuildWriteFrame addr ws) = Except.ok ws := by
  have hlen : (BuildWriteFrame addr ws).length =
      (encodeWords ws).length + 3 := by
    simp [BuildWriteFrame]
  have h3 : ¬ (BuildWriteFrame addr ws).length < 3 := by omega
  have hdrop : (BuildWriteFrame addr ws).dropLast =
      addr :: ws.length :: encodeWords ws := by
    unfold BuildWriteFrame
    exact List.dropLast_concat
  have hbodylen : (addr :: ws.length :: encodeWords ws).length =
      (encodeWords ws).length + 2 := by simp
  have hgetd : (BuildWriteFrame addr ws).getD
      ((BuildWriteFrame addr ws).length - 1) 0 =
      checksum (addr :: ws.length :: encodeWords ws) := by
    unfold BuildWriteFrame
    have : ((addr :: ws.length :: encodeWords ws) ++
        [checksum (addr :: ws.length :: encodeWords ws)]).length - 1 =
        (addr :: ws.length :: encodeWords ws).length := by
      simp
    rw [this]
    exact getD_concat_length _ _
  unfold ParseFrame
  rw [if_neg h3, hdrop, hgetd, if_neg (by simp)]
  simp [encodeWords_length, decodeWords_encodeWords ws h32]

/-- Helper for C3: corrupting any single byte of a built frame to a
different byte value makes the parse fail with CrcError. -/
theorem ParseFrame_corrupt (addr : Nat) (ws : List Nat) (i b : Nat)
    (ha : addr < 256) (hl : ws.length < 256)
    (hi : i < (BuildWriteFrame addr ws).length) (hb : b < 256)
    (hne : b ≠ (BuildWriteFrame addr ws).getD i 0) :
    ParseFrame (corruptAt (BuildWriteFrame addr ws) i b) =
      Except.error FrameError.CrcError := by
  set body := addr :: ws.length :: encodeWords ws with hbody
  have hframe : BuildWriteFrame addr ws = body ++ [checksum body] := rfl
  have hblen : (BuildWriteFrame addr ws).length = body.length + 1 := by
    rw [hframe]; simp
  have hbody3 : 2 ≤ body.length := by rw [hbody]; simp
  by_cases hcase : i < body.length
  · have hset : corruptAt (BuildWriteFrame addr ws) i b =
        body.set i b ++ [checksum body] := by
      rw [corruptAt, hframe]
      exact List.set_append_left _ _ hcase
    have hsetlen : (body.set i b).length = body.length := by simp
    have hold : body.getD i 0 < 256 := by
      rw [List.getD_eq_getElem body 0 hcase]
      refine mem_BuildWriteFrame_lt addr ws ha hl _ ?_
      rw [hframe]
      exact List.mem_append_left _ (List.getElem_mem hcase)
    have hi' : i < (body ++ [checksum body]).length := by simp; omega
    have hgetdi : (body ++ [checksum body]).getD i 0 = body.getD i 0 := by
      rw [List.getD_eq_getElem _ 0 hi', List.getD_eq_getElem body 0 hcase]
      exact List.getElem_append_left hcase
    have holdne : b ≠ body.getD i 0 := by
      rw [hframe, hgetdi] at hne
      exact hne
    have hsum := sum_set_getD body i b hcase
    have hnecrc : checksum (body.set i b) ≠ checksum body := by
      unfold checksum
      omega
    rw [hset]
    unfold ParseFrame
    have hl3 : ¬ (body.set i b ++ [checksum body]).length < 3 := by
      simp [hsetlen]; omega
    rw [if_neg hl3]
    have hdrop : (body.set i b ++ [checksum body]).dropLast = body.set i b :=
      List.dropLast_concat
    have hgetd : (body.set i b ++ [checksum body]).getD
        ((body.set i b ++ [checksum body]).length - 1) 0 = checksum body := by
      have : (body.set i b ++ [checksum body]).length - 1 =
          (body.set i b).length := by simp
      rw [this]
      exact getD_concat_length _ _
    rw [hdrop, hgetd, if_pos hnecrc]
  · have hieq : i = body.length := by omega
    have hset : corruptAt (BuildWriteFrame addr ws) i b = body ++ [b] := by
      rw [corruptAt, hframe, hieq]
      exact set_concat_length _ _ _
    have hne' : checksum body ≠ b := by
      have : (BuildWriteFrame addr ws).getD i 0 = checksum body := by
        rw [hframe, hieq]
        exact getD_concat_length _ _
      rw [this] at hne
      exact hne.symm
    rw [hset]
    unfold ParseFrame
    have hl3 : ¬ (body ++ [b]).length < 3 := by simp; omega
    rw [if_neg hl3]
    have hdrop : (body ++ [b]).dropLast = body := List.dropLast_concat
    have hgetd : (body ++ [b]).getD ((body ++ [b]).length - 1) 0 = b := by
      have : (body ++ [b]).length - 1 = body.length := by simp
      rw [this]
      exact getD_concat_length _ _
    rw [hdrop, hgetd, if_pos hne']

/-- Claim C3: within protocol limits (byte-sized address and word count,
32-bit words), parsing a built write frame returns exactly the words it
was built from, and corrupting any single byte of the built frame to a
different byte value makes ParseFrame return CrcError. -/
theorem frame_roundtrip_and_corruption (addr : Nat) (ws : List Nat)
    (i b : Nat) (ha : addr < 256) (hl : ws.length < 256)
    (h32 : ∀ w ∈ ws, w < 4294967296)
    (hi : i < (BuildWriteFrame addr ws).length) (hb : b < 256)
    (hne : b ≠ (BuildWriteFrame addr ws).getD i 0) :
    ParseFrame (BuildWriteFrame addr ws) = Except.ok ws ∧
    ParseFrame (corruptAt (BuildWriteFrame addr ws) i b) =
      Except.error FrameError.CrcError :=
  ⟨ParseFrame_BuildWriteFrame addr ws h32,
   ParseFrame_corrupt addr ws i b ha hl hi hb hne⟩

/-- Witness for C3: address 4, single word 7, corrupting byte 2 (the 7) to
9. -/
theorem frame_roundtrip_and_corruption_witness :
    ParseFrame (BuildWriteFrame 4 [7]) = Except.ok [7] ∧
    ParseFrame (corruptAt (BuildWriteFrame 4 [7]) 2 9) =
      Except.error FrameError.CrcError :=
  frame_roundtrip_and_corruption 4 [7] 2 9 (by decide) (by decide)
    (by decide) (by decide) (by decide) (by decide)

/-- Claim C4: for every raw register value and calibration factor the
decoder satisfies `decode(r, f) = round_half_even(r * f / SCALE)` for the
fixed scale constant, and decoding is deterministic and side-effect-free:
its stateful wrapper returns the state unchanged together with the pure
decoding result. -/
theorem decode_meets_round_half_even (r f : Nat) :
    decode r f = roundHalfEven (((r * f : Nat) : ℚ) / (SCALE : ℚ)) ∧
    ∀ s : MetroState, decodeWithState s r f = (s, decode r f) := by
  refine ⟨?_, fun s => rfl⟩
  have hSn : 0 < SCALE := by norm_num [SCALE]
  have hS : (0:ℚ) < (SCALE : ℚ) := by exact_mod_cast hSn
  have hq : SCALE * (r * f / SCALE) + r * f % SCALE = r * f :=
    Nat.div_add_mod (r * f) SCALE
  have hmlt : r * f % SCALE < SCALE := Nat.mod_lt _ hSn
  have hcast : ((r * f : Nat) : ℚ) =
      (SCALE : ℚ) * ((r * f / SCALE : Nat) : ℚ) +
        ((r * f % SCALE : Nat) : ℚ) := by
    exact_mod_cast hq.symm
  have hmcast : ((r * f % SCALE : Nat) : ℚ) < (SCALE : ℚ) := by
    exact_mod_cast hmlt
  have hfloor : ⌊((r * f : Nat) : ℚ) / (SCALE : ℚ)⌋ =
      ((r * f / SCALE : Nat) : ℤ) := by
    rw [Int.floor_eq_iff]
    rw [Int.cast_natCast]
    constructor
    · rw [le_div_iff₀ hS]
      nlinarith [Nat.cast_nonneg (α := ℚ) (r * f % SCALE)]
    · rw [div_lt_iff₀ hS]
      nlinarith [hmcast]
  have hfrac : ((r * f : Nat) : ℚ) / (SCALE : ℚ) -
      ((r * f / SCALE : Nat) : ℚ) =
      ((r * f % SCALE : Nat) : ℚ) / (SCALE : ℚ) := by
    rw [hcast]
    field_simp
  have c1 : (((r * f % SCALE : Nat) : ℚ) / (SCALE : ℚ) < 1 / 2) ↔
      (2 * (r * f % SCALE) < SCALE) := by
    rw [div_lt_div_iff₀ hS (by norm_num : (0:ℚ) < 2), one_mul, mul_comm]
    exact_mod_cast Iff.rfl
  have c2 : ((1 : ℚ) / 2 < ((r * f % SCALE : Nat) : ℚ) / (SCALE : ℚ)) ↔
      (SCALE < 2 * (r * f % SCALE)) := by
    rw [div_lt_div_iff₀ (by norm_num : (0:ℚ) < 2) hS, one_mul, mul_comm]
    exact_mod_cast Iff.rfl
  have c3 : (((r * f / SCALE : Nat) : ℤ) % 2 = 0) ↔
      ((r * f / SCALE) % 2 = 0) := by
    omega
  rw [roundHalfEven, hfloor]
  simp only [Int.cast_natCast]
  rw [hfrac]
  simp only [c1, c2, c3]
  rw [decode]

end Metrology
